import Mathlib

/-!
Verification development for an asynchronous username availability checker
(`src/main.py`).  The code is shallowly embedded: Python JSON values become an
inductive `Json` type (with `null` doubling as Python `None`), the transport is
an oracle mapping an attempt number to either a `TransportError` message or a
`(status, payload)` pair, and the side effects of one batch (report lines,
output-sink appends, backoff sleeps, transport choice) are collected in
explicit result structures.
-/

namespace InstaCheck

/-- Python values produced by `json.loads`; `null` also stands for Python
`None` (e.g. the result of `dict.get` on a missing key). -/
inductive Json where
  | null : Json
  | bool (b : Bool) : Json
  | num (n : Int) : Json
  | str (s : String) : Json
  | arr (xs : List Json) : Json
  | obj (kvs : List (String × Json)) : Json

/-- Python truthiness of a parsed JSON value. -/
def truthy : Json → Bool
  | .null => false
  | .bool b => b
  | .num n => !(n == 0)
  | .str s => !(s == "")
  | .arr xs => !xs.isEmpty
  | .obj kvs => !kvs.isEmpty

/-- `kvs.get(k)` on a Python dict represented as a key/value list:
the value of the first matching key, `null` (Python `None`) when absent. -/
def lookupD : List (String × Json) → String → Json
  | [], _ => .null
  | (k, v) :: kvs, key => if k == key then v else lookupD kvs key

/-- `k in d` for a Python dict represented as a key/value list. -/
def hasKeyL : List (String × Json) → String → Bool
  | [], _ => false
  | (k, _) :: kvs, key => k == key || hasKeyL kvs key

/-- `isinstance(x, dict)`. -/
def Json.isDict : Json → Bool
  | .obj _ => true
  | _ => false

/-- `k in data` (guarded by `isinstance(data, dict)` at every call site). -/
def hasKey : Json → String → Bool
  | .obj kvs, key => hasKeyL kvs key
  | _, _ => false

/-- `data.get(k)` (also `data[k]` once `k in data` is known). -/
def Json.getKey : Json → String → Json
  | .obj kvs, key => lookupD kvs key
  | _, _ => .null

/-- `x[0]` on a Python value: first element of a non-empty list, first
character of a non-empty string; everything else raises (`none`). -/
def index0 : Json → Option Json
  | .arr (x :: _) => some x
  | .str s => if s.isEmpty then none else some (.str (String.singleton s.front))
  | _ => none

/-- Python `x == n` for an int literal `n` (only int values compare equal). -/
def pyEqInt (v : Json) (n : Int) : Bool :=
  match v with
  | .num m => m == n
  | _ => false

/-- Python `x is None`. -/
def Json.isNull : Json → Bool
  | .null => true
  | _ => false

/-- `OxylabsClient.fetch_status_code`, response-shape resolution
(src/main.py lines 83-87): prefer `data['results'][0]` when `data` is a dict
whose `results` entry is present and truthy, else the top-level value.
`none` models an uncaught Python exception from the indexing. -/
def resolveResult (data : Json) : Option Json :=
  if data.isDict && hasKey data "results" && truthy (data.getKey "results") then
    index0 (data.getKey "results")
  else
    some data

/-- `OxylabsClient.fetch_status_code`, status extraction (lines 88-90):
`result.get('status_code') or result.get('status')` when `result` is a dict,
otherwise `None`. -/
def extractStatus (result : Json) : Json :=
  match result with
  | .obj kvs =>
    let a := lookupD kvs "status_code"
    if truthy a then a else lookupD kvs "status"
  | _ => .null

/-- The `(status_code, result)` pair returned by
`OxylabsClient.fetch_status_code` for a parsed response body. -/
def oxylabsOutcome (data : Json) : Option (Json × Json) :=
  match resolveResult data with
  | some result => some (extractStatus result, result)
  | none => none

/-- One character of the class `[A-Za-z0-9._]`. -/
def isAllowedChar (c : Char) : Bool :=
  (decide ('A' ≤ c) && decide (c ≤ 'Z')) ||
  (decide ('a' ≤ c) && decide (c ≤ 'z')) ||
  (decide ('0' ≤ c) && decide (c ≤ '9')) ||
  c == '.' || c == '_'

/-- `re.fullmatch(r'[A-Za-z0-9._]+', s)` is not `None`. -/
def matchesAlphabetPlus (s : String) : Bool :=
  !s.data.isEmpty && s.data.all isAllowedChar

/-- `is_valid_instagram_username` (src/main.py lines 42-51).  The single-char
prefix/suffix tests `startswith('.')` / `endswith('.')` are embedded as tests
on the first/last character. -/
def is_valid_instagram_username (username : String) : Bool :=
  if !(decide (1 ≤ username.length) && decide (username.length ≤ 30)) then false
  else if !matchesAlphabetPlus username then false
  else if username.data.head? == some '.' || username.data.getLast? == some '.' then false
  else true

/-- Python `str.strip()`: remove leading and trailing whitespace. -/
def pyStrip (s : String) : String :=
  ⟨((s.data.dropWhile Char.isWhitespace).reverse.dropWhile Char.isWhitespace).reverse⟩

/-- The seen-set deduplication loop of `open_file` (lines 29-34), keeping the
first occurrence of each line. -/
def dedupSeen (seen : List String) : List String → List String
  | [] => []
  | n :: ns => if n ∈ seen then dedupSeen seen ns else n :: dedupSeen (n :: seen) ns

/-- `open_file` applied to the raw lines of the input file (lines 26-34):
strip each line, drop blank lines, drop duplicates keeping order. -/
def openFileLines (rawLines : List String) : List String :=
  dedupSeen [] ((rawLines.map pyStrip).filter (fun l => !(l == "")))

/-- Which transport class `Checker.start` constructs. -/
inductive TransportKind where
  | mediated : TransportKind
  | direct : TransportKind
deriving DecidableEq

/-- One emitted report line, with exactly the data interpolated into it. -/
inductive Event where
  | available (url : String) : Event
  | unknownStatus (username : String) (raw : Json) : Event
  | unavailable (url : String) (status : Json) : Event
  | errored (username : String) (msg : String) : Event
  | skippingInvalid (count : Nat) : Event
  | noValid : Event
  | usingOxylabs : Event
  | fallbackDirect : Event

def Event.isUseOxy : Event → Bool
  | .usingOxylabs => true
  | _ => false

def Event.isFallback : Event → Bool
  | .fallbackDirect => true
  | _ => false

def Event.isNoValidMsg : Event → Bool
  | .noValid => true
  | _ => false

def Event.isSkipMsg : Event → Bool
  | .skippingInvalid _ => true
  | _ => false

/-- Events that only the per-item task body can emit. -/
def Event.isTaskLevel : Event → Bool
  | .available _ => true
  | .unknownStatus _ _ => true
  | .unavailable _ _ => true
  | .errored _ _ => true
  | _ => false

/-- Observable behaviour of one `_check_one` task: report lines, output-sink
appends, backoff sleep durations, and the number of transport calls made. -/
structure TaskResult where
  events : List Event
  writes : List String
  sleeps : List Nat
  attempts : Nat

/-- Observable behaviour of one `Checker.start` batch. -/
structure BatchResult where
  events : List Event
  writes : List String
  transport : Option TransportKind
  totalAttempts : Nat

/-- `url = f'https://www.instagram.com/{username}/'` (line 137). -/
def igUrl (username : String) : String :=
  "https://www.instagram.com/" ++ username ++ "/"

/-- The retry loop of `Checker._check_one` (lines 138-157), started at a given
attempt number.  `fetch k` is the outcome of the transport call on attempt
`k` (numbered from 1): `.error e` models a raised
`aiohttp.ClientError`/`asyncio.TimeoutError`, `.ok (status, raw)` a returned
`(status_code, result)` pair.  On failure with `attempt <= retries` the task
sleeps `min(2 ** (attempt - 1), 10)` and retries; otherwise it reports an
error and gives up. -/
def checkOneFrom (retries : Nat) (fetch : Nat → Except String (Json × Json))
    (username : String) (attempt : Nat) : TaskResult :=
  match fetch attempt with
  | .ok (statusCode, raw) =>
    if pyEqInt statusCode 404 then
      { events := [.available (igUrl username)], writes := [username],
        sleeps := [], attempts := 1 }
    else if statusCode.isNull then
      { events := [.unknownStatus username raw], writes := [],
        sleeps := [], attempts := 1 }
    else
      { events := [.unavailable (igUrl username) statusCode], writes := [],
        sleeps := [], attempts := 1 }
  | .error e =>
    if h : attempt ≤ retries then
      let rest := checkOneFrom retries fetch username (attempt + 1)
      { events := rest.events, writes := rest.writes,
        sleeps := min (2 ^ (attempt - 1)) 10 :: rest.sleeps,
        attempts := rest.attempts + 1 }
    else
      { events := [.errored username e], writes := [],
        sleeps := [], attempts := 1 }
termination_by retries + 1 - attempt
decreasing_by simp_wf; omega

/-- `Checker._check_one` for one username: the loop entered with
`attempt = 0` and immediately incremented to 1.  The transport oracle is
indexed by the probed URL. -/
def checkOne (retries : Nat) (fetch : String → Nat → Except String (Json × Json))
    (username : String) : TaskResult :=
  checkOneFrom retries (fetch (igUrl username)) username 1

/-- Python truthiness of `self.oxy_user` / `self.oxy_pass`
(`str | None`; `None` and `''` are falsy). -/
def truthyOptStr : Option String → Bool
  | none => false
  | some s => !(s == "")

/-- `Checker.start` (lines 159-177): filter through the validity predicate,
count and report skipped names, stop if nothing valid remains, otherwise pick
the transport from credential presence and run one task per valid username.
Task output is collected in task order; the actual interleaving of lines from
concurrent tasks is not modelled, only their multiset union. -/
def startRun (toCheck : List String) (retries : Nat)
    (oxyUser oxyPass : Option String)
    (fetch : String → Nat → Except String (Json × Json)) : BatchResult :=
  let valid := toCheck.filter (fun u => is_valid_instagram_username u)
  let skipped := toCheck.filter (fun u => !(valid.contains u))
  let preEvents := if skipped.isEmpty then ([] : List Event)
    else [Event.skippingInvalid skipped.length]
  if valid.isEmpty then
    { events := preEvents ++ [Event.noValid], writes := [],
      transport := none, totalAttempts := 0 }
  else
    let creds := truthyOptStr oxyUser && truthyOptStr oxyPass
    let kind := if creds then TransportKind.mediated else TransportKind.direct
    let kindEvent := if creds then Event.usingOxylabs else Event.fallbackDirect
    let results := valid.map (fun u => checkOne retries fetch u)
    { events := preEvents ++ kindEvent :: (results.map TaskResult.events).flatten,
      writes := (results.map TaskResult.writes).flatten,
      transport := some kind,
      totalAttempts := (results.map TaskResult.attempts).sum }

/-- The batch pipeline `open_file` → `Checker.start` (see `amain`):
deduplicated stripped input lines fed to the checker. -/
def runBatch (rawLines : List String) (retries : Nat)
    (oxyUser oxyPass : Option String)
    (fetch : String → Nat → Except String (Json × Json)) : BatchResult :=
  startRun (openFileLines rawLines) retries oxyUser oxyPass fetch

/-- The configuration state stored by `Checker.__init__` (lines 128-134):
the semaphore capacity `max(1, concurrency)` and the retry budget
`max(0, retries)`. -/
structure CheckerConfig where
  semCapacity : Int
  retries : Int

/-- `Checker.__init__` on the two clamped integer options. -/
def mkCheckerConfig (concurrency retries : Int) : CheckerConfig :=
  { semCapacity := max 1 concurrency, retries := max 0 retries }

end InstaCheck

namespace InstaCheck

/-! ### Basic lemmas about the embedding -/

lemma pyEqInt_eq_true {v : Json} {n : Int} : pyEqInt v n = true ↔ v = .num n := by
  cases v <;> simp [pyEqInt]

lemma isNull_eq_true {v : Json} : v.isNull = true ↔ v = .null := by
  cases v <;> simp [Json.isNull]

lemma hasKeyL_of_lookupD_ne_null {kvs : List (String × Json)} {k : String}
    (h : lookupD kvs k ≠ .null) : hasKeyL kvs k = true := by
  induction kvs with
  | nil => simp [lookupD] at h
  | cons p rest ih =>
    obtain ⟨k1, v1⟩ := p
    by_cases hk : (k1 == k) = true
    · simp [hasKeyL, hk]
    · simp only [lookupD, hk, if_false] at h
      simp [hasKeyL, hk, ih h]

lemma lookupD_eq_null_of_hasKeyL_false {kvs : List (String × Json)} {k : String}
    (h : hasKeyL kvs k = false) : lookupD kvs k = .null := by
  induction kvs with
  | nil => rfl
  | cons p rest ih =>
    obtain ⟨k1, v1⟩ := p
    simp only [hasKeyL, Bool.or_eq_false_iff] at h
    simp [lookupD, h.1, ih h.2]

/-- Conjunction form of the early-return chain in
`is_valid_instagram_username`. -/
lemma is_valid_eq_conj (s : String) :
    is_valid_instagram_username s
      = (decide (1 ≤ s.length) && decide (s.length ≤ 30) && matchesAlphabetPlus s
          && !(s.data.head? == some (Char.ofNat 46)) && !(s.data.getLast? == some (Char.ofNat 46))) := by
  unfold is_valid_instagram_username
  cases hA : (decide (1 ≤ s.length) && decide (s.length ≤ 30)) <;>
    cases hB : matchesAlphabetPlus s <;>
      cases hC : (s.data.head? == some (Char.ofNat 46)) <;>
        cases hD : (s.data.getLast? == some (Char.ofNat 46)) <;>
          simp_all

/-- C5: the Mediated transport prefers the first element of a present,
non-empty `results` list, else the top-level value; a resolved value that is
not a mapping or carries no status field yields status `None`, and the
resolved value itself is always the diagnostic payload. -/
theorem c5_mediated_response_resolution (data : Json) :
    (∀ x xs, data.isDict = true → data.getKey "results" = .arr (x :: xs) →
        oxylabsOutcome data = some (extractStatus x, x)) ∧
    ((data.isDict = false ∨ truthy (data.getKey "results") = false) →
        oxylabsOutcome data = some (extractStatus data, data)) ∧
    (∀ result, result.isDict = false → extractStatus result = .null) ∧
    (∀ kvs, hasKeyL kvs "status_code" = false → hasKeyL kvs "status" = false →
        extractStatus (.obj kvs) = .null) := by
  refine ⟨?_, ?_, ?_, ?_⟩
  · intro x xs hdict hres
    cases data with
    | obj kvs =>
      simp only [Json.getKey] at hres
      have hk : hasKeyL kvs "results" = true :=
        hasKeyL_of_lookupD_ne_null (by rw [hres]; intro hcontra; cases hcontra)
      simp [oxylabsOutcome, resolveResult, Json.isDict, hasKey, hk, Json.getKey, hres,
        truthy, index0]
    | _ => simp [Json.isDict] at hdict
  · intro h
    rcases h with h | h
    · simp [oxylabsOutcome, resolveResult, h]
    · simp [oxylabsOutcome, resolveResult, h]
  · intro result h
    cases result <;> simp_all [extractStatus, Json.isDict]
  · intro kvs h1 h2
    have e1 := lookupD_eq_null_of_hasKeyL_false h1
    have e2 := lookupD_eq_null_of_hasKeyL_false h2
    simp [extractStatus, e1, e2, truthy]

theorem c5_mediated_response_resolution_witness :
    oxylabsOutcome (Json.obj [("results", Json.arr [Json.obj [("status_code", Json.num 404)]])])
      = some (Json.num 404, Json.obj [("status_code", Json.num 404)]) := by
  have h := (c5_mediated_response_resolution
      (Json.obj [("results", Json.arr [Json.obj [("status_code", Json.num 404)]])])).1
      (Json.obj [("status_code", Json.num 404)]) [] rfl rfl
  rw [h]
  rfl

/-- C6 counterexample: `status_code` may be present yet ignored.  For the
resolved mapping with entries `status_code = 0` and `status = 404`, the code
returns 404 (the `status` value), not the present `status_code` value 0,
because `result.get('status_code') or result.get('status')` falls back on any
falsy value, not only on absence. -/
theorem c6_counterexample :
    hasKeyL [("status_code", Json.num 0), ("status", Json.num 404)] "status_code" = true ∧
    extractStatus (Json.obj [("status_code", Json.num 0), ("status", Json.num 404)])
      = Json.num 404 ∧
    extractStatus (Json.obj [("status_code", Json.num 0), ("status", Json.num 404)])
      ≠ lookupD [("status_code", Json.num 0), ("status", Json.num 404)] "status_code" := by
  refine ⟨rfl, rfl, ?_⟩
  intro h
  have h404 : Json.num 404 = Json.num 0 := h
  injection h404 with hn
  exact absurd hn (by decide)

/-- C6 amended: the status is read from `status_code` when that entry has a
truthy value, and otherwise (absent entry or falsy value, e.g. `0` or `null`)
from `status`. -/
theorem c6_amended_status_preference (result : Json) :
    (truthy (result.getKey "status_code") = true →
        extractStatus result = result.getKey "status_code") ∧
    (truthy (result.getKey "status_code") = false →
        extractStatus result = result.getKey "status") := by
  constructor
  · intro h
    cases result <;> simp_all [Json.getKey, truthy, extractStatus]
  · intro h
    cases result <;> simp_all [Json.getKey, truthy, extractStatus]

theorem c6_amended_status_preference_witness :
    extractStatus (Json.obj [("status_code", Json.num 404), ("status", Json.num 200)])
        = Json.getKey (Json.obj [("status_code", Json.num 404), ("status", Json.num 200)]) "status_code" ∧
    extractStatus (Json.obj [("status_code", Json.num 0), ("status", Json.num 404)])
        = Json.getKey (Json.obj [("status_code", Json.num 0), ("status", Json.num 404)]) "status" :=
  ⟨(c6_amended_status_preference _).1 rfl, (c6_amended_status_preference _).2 rfl⟩

/-- C7: the validity predicate accepts exactly the strings of 1 to 30
characters over `[A-Za-z0-9._]` with no leading or trailing period, and
classifies the spec examples accordingly. -/
theorem c7_validity_predicate :
    (∀ s : String, is_valid_instagram_username s = true ↔
        (1 ≤ s.length ∧ s.length ≤ 30 ∧ (∀ c ∈ s.data, isAllowedChar c = true) ∧
          s.data.head? ≠ some (Char.ofNat 46) ∧ s.data.getLast? ≠ some (Char.ofNat 46))) ∧
    is_valid_instagram_username "john_doe" = true ∧
    is_valid_instagram_username "a.b.c" = true ∧
    is_valid_instagram_username "aaaaaaaaaaaaaaaaaaaaaaaaaaaaaaa" = false ∧
    is_valid_instagram_username ".leading" = false ∧
    is_valid_instagram_username "trailing." = false ∧
    is_valid_instagram_username "bad$char" = false ∧
    is_valid_instagram_username "" = false := by
  refine ⟨?_, by decide, by decide, by decide, by decide, by decide, by decide, by decide⟩
  intro s
  rw [is_valid_eq_conj]
  simp only [Bool.and_eq_true, decide_eq_true_eq, matchesAlphabetPlus,
    Bool.not_eq_true', beq_eq_false_iff_ne, ne_eq, List.all_eq_true]
  constructor
  · rintro ⟨⟨⟨⟨h1, h2⟩, _, h4⟩, h5⟩, h6⟩
    exact ⟨h1, h2, h4, h5, h6⟩
  · rintro ⟨h1, h2, h4, h5, h6⟩
    refine ⟨⟨⟨⟨h1, h2⟩, ?_, h4⟩, h5⟩, h6⟩
    have hlen : s.data.length ≠ 0 := by
      have : s.length = s.data.length := rfl
      omega
    cases hd : s.data with
    | nil => rw [hd] at hlen; exact absurd rfl hlen
    | cons a l => rfl

theorem c7_validity_predicate_witness :
    is_valid_instagram_username "john_doe" = true ↔
      (1 ≤ "john_doe".length ∧ "john_doe".length ≤ 30 ∧
        (∀ c ∈ "john_doe".data, isAllowedChar c = true) ∧
        "john_doe".data.head? ≠ some (Char.ofNat 46) ∧
        "john_doe".data.getLast? ≠ some (Char.ofNat 46)) :=
  c7_validity_predicate.1 "john_doe"

/-- C10: `Checker.__init__` clamps the two integer options, so the semaphore
capacity is `max(1, concurrency)` (always at least 1) and the stored retry
budget is `max(0, retries)` (never negative). -/
theorem c10_constructor_clamps (concurrency retries : Int) :
    (mkCheckerConfig concurrency retries).semCapacity = max 1 concurrency ∧
    1 ≤ (mkCheckerConfig concurrency retries).semCapacity ∧
    (mkCheckerConfig concurrency retries).retries = max 0 retries ∧
    0 ≤ (mkCheckerConfig concurrency retries).retries :=
  ⟨rfl, le_max_left 1 concurrency, rfl, le_max_left 0 retries⟩

/-! ### Unfolding lemmas for the retry loop -/

lemma checkOneFrom_ok {fetch : Nat → Except String (Json × Json)}
    {attempt : Nat} {statusCode raw : Json} (retries : Nat) (username : String)
    (h : fetch attempt = .ok (statusCode, raw)) :
    checkOneFrom retries fetch username attempt =
      if pyEqInt statusCode 404 then
        { events := [.available (igUrl username)], writes := [username],
          sleeps := [], attempts := 1 }
      else if statusCode.isNull then
        { events := [.unknownStatus username raw], writes := [],
          sleeps := [], attempts := 1 }
      else
        { events := [.unavailable (igUrl username) statusCode], writes := [],
          sleeps := [], attempts := 1 } := by
  rw [checkOneFrom.eq_def, h]

lemma checkOneFrom_error_retry {fetch : Nat → Except String (Json × Json)}
    {attempt : Nat} {e : String} (retries : Nat) (username : String)
    (h : fetch attempt = .error e) (hle : attempt ≤ retries) :
    checkOneFrom retries fetch username attempt =
      { events := (checkOneFrom retries fetch username (attempt + 1)).events,
        writes := (checkOneFrom retries fetch username (attempt + 1)).writes,
        sleeps := min (2 ^ (attempt - 1)) 10
          :: (checkOneFrom retries fetch username (attempt + 1)).sleeps,
        attempts := (checkOneFrom retries fetch username (attempt + 1)).attempts + 1 } := by
  conv_lhs => rw [checkOneFrom.eq_def]
  rw [h]
  simp [hle]

lemma checkOneFrom_error_stop {fetch : Nat → Except String (Json × Json)}
    {attempt : Nat} {e : String} (retries : Nat) (username : String)
    (h : fetch attempt = .error e) (hgt : ¬ attempt ≤ retries) :
    checkOneFrom retries fetch username attempt =
      { events := [.errored username e], writes := [], sleeps := [], attempts := 1 } := by
  rw [checkOneFrom.eq_def, h]
  simp [hgt]

/-- C2: classification of a completed probe is a total trichotomy on the
returned status: 404 yields the available line and the single sink append,
`None` yields the warning line carrying the raw payload and no append, and
every other status yields the unavailable line carrying URL and status and no
append. -/
theorem c2_classification_trichotomy (retries : Nat)
    (fetch : String → Nat → Except String (Json × Json)) (username : String)
    (statusCode raw : Json)
    (h : fetch (igUrl username) 1 = .ok (statusCode, raw)) :
    (statusCode = Json.num 404 →
        (checkOne retries fetch username).events = [.available (igUrl username)] ∧
        (checkOne retries fetch username).writes = [username]) ∧
    (statusCode = Json.null →
        (checkOne retries fetch username).events = [.unknownStatus username raw] ∧
        (checkOne retries fetch username).writes = []) ∧
    (pyEqInt statusCode 404 = false → statusCode.isNull = false →
        (checkOne retries fetch username).events
          = [.unavailable (igUrl username) statusCode] ∧
        (checkOne retries fetch username).writes = []) := by
  unfold checkOne
  rw [checkOneFrom_ok retries username h]
  refine ⟨?_, ?_, ?_⟩
  · rintro rfl
    simp [pyEqInt]
  · rintro rfl
    simp [pyEqInt, Json.isNull]
  · intro h1 h2
    simp [h1, h2]

theorem c2_classification_trichotomy_witness :
    ((checkOne 3 (fun _ _ => .ok (Json.num 404, Json.null)) "alice").events
        = [.available (igUrl "alice")] ∧
      (checkOne 3 (fun _ _ => .ok (Json.num 404, Json.null)) "alice").writes = ["alice"]) ∧
    ((checkOne 3 (fun _ _ => .ok (Json.num 200, Json.null)) "bob").events
        = [.unavailable (igUrl "bob") (Json.num 200)] ∧
      (checkOne 3 (fun _ _ => .ok (Json.num 200, Json.null)) "bob").writes = []) :=
  ⟨(c2_classification_trichotomy 3 _ "alice" (Json.num 404) Json.null rfl).1 rfl,
    (c2_classification_trichotomy 3 _ "bob" (Json.num 200) Json.null rfl).2.2 rfl rfl⟩

lemma checkOneFrom_all_error {fetch : Nat → Except String (Json × Json)} {err : String}
    (retries : Nat) (username : String) (hf : ∀ k, fetch k = .error err) :
    ∀ d attempt, 1 ≤ attempt → attempt + d = retries + 1 →
      (checkOneFrom retries fetch username attempt).events = [.errored username err] ∧
      (checkOneFrom retries fetch username attempt).writes = [] ∧
      (checkOneFrom retries fetch username attempt).sleeps
        = (List.range' attempt d).map (fun a => min (2 ^ (a - 1)) 10) ∧
      (checkOneFrom retries fetch username attempt).attempts = d + 1 := by
  intro d
  induction d with
  | zero =>
    intro attempt h1 h2
    have hgt : ¬ attempt ≤ retries := by omega
    rw [checkOneFrom_error_stop retries username (hf attempt) hgt]
    simp [List.range']
  | succ d ih =>
    intro attempt h1 h2
    have hle : attempt ≤ retries := by omega
    rw [checkOneFrom_error_retry retries username (hf attempt) hle]
    have hrec := ih (attempt + 1) (by omega) (by omega)
    refine ⟨hrec.1, hrec.2.1, ?_, by rw [hrec.2.2.2]⟩
    rw [hrec.2.2.1]
    rfl

/-- C3: when the transport raises a retryable error on every attempt, the
loop makes exactly `retries + 1` transport calls, sleeps
`min(2 ** (a - 1), 10)` after each failed attempt `a = 1 .. retries`, then
emits one error line naming the identifier and writes nothing. -/
theorem c3_retry_budget_exhaustion (retries : Nat)
    (fetch : String → Nat → Except String (Json × Json)) (username : String)
    (err : String) (hf : ∀ k, fetch (igUrl username) k = .error err) :
    (checkOne retries fetch username).attempts = retries + 1 ∧
    (checkOne retries fetch username).sleeps
      = (List.range' 1 retries).map (fun a => min (2 ^ (a - 1)) 10) ∧
    (checkOne retries fetch username).events = [.errored username err] ∧
    (checkOne retries fetch username).writes = [] := by
  have h := checkOneFrom_all_error retries username hf retries 1 (by omega) (by omega)
  exact ⟨h.2.2.2, h.2.2.1, h.1, h.2.1⟩

theorem c3_retry_budget_exhaustion_witness :
    ((checkOne 3 (fun _ _ => .error "timeout") "alice").attempts = 3 + 1 ∧
      (checkOne 3 (fun _ _ => .error "timeout") "alice").sleeps
        = (List.range' 1 3).map (fun a => min (2 ^ (a - 1)) 10) ∧
      (checkOne 3 (fun _ _ => .error "timeout") "alice").events
        = [.errored "alice" "timeout"] ∧
      (checkOne 3 (fun _ _ => .error "timeout") "alice").writes = []) ∧
    (List.range' 1 3).map (fun a => min (2 ^ (a - 1)) 10) = [1, 2, 4] :=
  ⟨c3_retry_budget_exhaustion 3 _ "alice" "timeout" (fun _ => rfl), by decide⟩

/-! ### Shape of one task: one report line, at most one sink write -/

lemma checkOneFrom_ok_shape {fetch : Nat → Except String (Json × Json)}
    (retries : Nat) (username : String) (attempt : Nat) (statusCode raw : Json)
    (hfa : fetch attempt = .ok (statusCode, raw)) :
    (∃ e, (checkOneFrom retries fetch username attempt).events = [e] ∧
        e.isTaskLevel = true) ∧
    ((checkOneFrom retries fetch username attempt).writes = [] ∨
      ((checkOneFrom retries fetch username attempt).writes = [username] ∧
        ∃ k raw2, fetch k = .ok (Json.num 404, raw2))) := by
  rw [checkOneFrom_ok retries username hfa]
  by_cases h404 : pyEqInt statusCode 404 = true
  · rw [if_pos h404]
    exact ⟨⟨_, rfl, rfl⟩,
      Or.inr ⟨rfl, attempt, raw, by rw [hfa, pyEqInt_eq_true.mp h404]⟩⟩
  · rw [if_neg h404]
    by_cases hnull : statusCode.isNull = true
    · rw [if_pos hnull]
      exact ⟨⟨_, rfl, rfl⟩, Or.inl rfl⟩
    · rw [if_neg hnull]
      exact ⟨⟨_, rfl, rfl⟩, Or.inl rfl⟩

lemma checkOneFrom_shape {fetch : Nat → Except String (Json × Json)}
    (retries : Nat) (username : String) :
    ∀ d attempt, retries + 1 ≤ attempt + d →
      (∃ e, (checkOneFrom retries fetch username attempt).events = [e] ∧
          e.isTaskLevel = true) ∧
      ((checkOneFrom retries fetch username attempt).writes = [] ∨
        ((checkOneFrom retries fetch username attempt).writes = [username] ∧
          ∃ k raw, fetch k = .ok (Json.num 404, raw))) := by
  intro d
  induction d with
  | zero =>
    intro attempt hb
    cases hfa : fetch attempt with
    | ok pr =>
      obtain ⟨statusCode, raw⟩ := pr
      exact checkOneFrom_ok_shape retries username attempt statusCode raw hfa
    | error e =>
      have hgt : ¬ attempt ≤ retries := by omega
      rw [checkOneFrom_error_stop retries username hfa hgt]
      exact ⟨⟨_, rfl, rfl⟩, Or.inl rfl⟩
  | succ d ih =>
    intro attempt hb
    cases hfa : fetch attempt with
    | ok pr =>
      obtain ⟨statusCode, raw⟩ := pr
      exact checkOneFrom_ok_shape retries username attempt statusCode raw hfa
    | error e =>
      by_cases hle : attempt ≤ retries
      · rw [checkOneFrom_error_retry retries username hfa hle]
        have hrec := ih (attempt + 1) (by omega)
        exact ⟨hrec.1, hrec.2⟩
      · rw [checkOneFrom_error_stop retries username hfa hle]
        exact ⟨⟨_, rfl, rfl⟩, Or.inl rfl⟩

lemma checkOne_shape (retries : Nat)
    (fetch : String → Nat → Except String (Json × Json)) (username : String) :
    (∃ e, (checkOne retries fetch username).events = [e] ∧ e.isTaskLevel = true) ∧
    ((checkOne retries fetch username).writes = [] ∨
      ((checkOne retries fetch username).writes = [username] ∧
        ∃ k raw, fetch (igUrl username) k = .ok (Json.num 404, raw))) :=
  checkOneFrom_shape retries username retries 1 (by omega)

/-! ### Deduplication produces lists without repetition -/

lemma mem_dedupSeen_not_seen :
    ∀ (l seen : List String) (x : String), x ∈ dedupSeen seen l → x ∉ seen := by
  intro l
  induction l with
  | nil =>
    intro seen x hx
    simp [dedupSeen] at hx
  | cons n ns ih =>
    intro seen x hx
    simp only [dedupSeen] at hx
    by_cases hn : n ∈ seen
    · rw [if_pos hn] at hx
      exact ih seen x hx
    · rw [if_neg hn] at hx
      rcases List.mem_cons.mp hx with rfl | hx2
      · exact hn
      · intro hxseen
        exact (ih (n :: seen) x hx2) (List.mem_cons_of_mem n hxseen)

lemma dedupSeen_nodup : ∀ (l seen : List String), (dedupSeen seen l).Nodup := by
  intro l
  induction l with
  | nil =>
    intro seen
    simp [dedupSeen]
  | cons n ns ih =>
    intro seen
    simp only [dedupSeen]
    by_cases hn : n ∈ seen
    · rw [if_pos hn]
      exact ih seen
    · rw [if_neg hn]
      refine List.nodup_cons.mpr ⟨?_, ih (n :: seen)⟩
      intro hmem
      exact (mem_dedupSeen_not_seen ns (n :: seen) n hmem) (List.mem_cons_self n seen)

lemma openFileLines_nodup (rawLines : List String) : (openFileLines rawLines).Nodup :=
  dedupSeen_nodup _ _

/-! ### Counting sink writes across the batch -/

lemma mem_of_mem_taskWrites {l : List String} {tw : String → List String}
    (hw : ∀ v, tw v = [] ∨ tw v = [v]) {u : String}
    (hu : u ∈ (l.map tw).flatten) : u ∈ l := by
  rcases List.mem_flatten.mp hu with ⟨ws, hws, huw⟩
  rcases List.mem_map.mp hws with ⟨v, hv, rfl⟩
  rcases hw v with h | h
  · rw [h] at huw
    cases huw
  · rw [h] at huw
    rcases List.mem_singleton.mp huw with rfl
    exact hv

lemma count_flatten_eq_one {l : List String} {tw : String → List String}
    (hnd : l.Nodup) (hw : ∀ v, tw v = [] ∨ tw v = [v]) {u : String}
    (hu : u ∈ (l.map tw).flatten) : ((l.map tw).flatten).count u = 1 := by
  induction l with
  | nil => simp at hu
  | cons v vs ih =>
    rw [List.map_cons, List.flatten_cons] at hu ⊢
    rw [List.count_append]
    rcases List.nodup_cons.mp hnd with ⟨hvnotin, hndvs⟩
    rcases List.mem_append.mp hu with h1 | h2
    · rcases hw v with hv | hv
      · rw [hv] at h1
        cases h1
      · rw [hv] at h1
        rcases List.mem_singleton.mp h1 with rfl
        rw [hv]
        have hnotin : u ∉ (vs.map tw).flatten :=
          fun hmem => hvnotin (mem_of_mem_taskWrites hw hmem)
        rw [List.count_eq_zero.mpr hnotin]
        simp
    · have huvs : u ∈ vs := mem_of_mem_taskWrites hw h2
      have hne : u ≠ v := fun heq => hvnotin (heq ▸ huvs)
      have hzero : (tw v).count u = 0 := by
        rcases hw v with hv | hv
        · rw [hv]
          rfl
        · rw [hv]
          exact List.count_eq_zero.mpr (by simp [hne])
      rw [hzero, ih hndvs h2]

/-! ### Characterizations of one batch run -/

lemma startRun_eq_empty (toCheck : List String) (retries : Nat)
    (oxyUser oxyPass : Option String)
    (fetch : String → Nat → Except String (Json × Json))
    (hemp : (toCheck.filter (fun u => is_valid_instagram_username u)).isEmpty = true) :
    startRun toCheck retries oxyUser oxyPass fetch =
      { events := (if (toCheck.filter (fun u =>
              !((toCheck.filter (fun v => is_valid_instagram_username v)).contains u))).isEmpty
            then ([] : List Event)
            else [Event.skippingInvalid (toCheck.filter (fun u =>
              !((toCheck.filter (fun v => is_valid_instagram_username v)).contains u))).length])
          ++ [Event.noValid],
        writes := [], transport := none, totalAttempts := 0 } := by
  simp only [startRun, hemp, if_true]

lemma startRun_eq_nonempty (toCheck : List String) (retries : Nat)
    (oxyUser oxyPass : Option String)
    (fetch : String → Nat → Except String (Json × Json))
    (hne : (toCheck.filter (fun u => is_valid_instagram_username u)).isEmpty = false) :
    startRun toCheck retries oxyUser oxyPass fetch =
      { events := (if (toCheck.filter (fun u =>
              !((toCheck.filter (fun v => is_valid_instagram_username v)).contains u))).isEmpty
            then ([] : List Event)
            else [Event.skippingInvalid (toCheck.filter (fun u =>
              !((toCheck.filter (fun v => is_valid_instagram_username v)).contains u))).length])
          ++ (if truthyOptStr oxyUser && truthyOptStr oxyPass then Event.usingOxylabs
              else Event.fallbackDirect)
            :: (((toCheck.filter (fun u => is_valid_instagram_username u)).map
                  (fun u => (checkOne retries fetch u).events)).flatten),
        writes := ((toCheck.filter (fun u => is_valid_instagram_username u)).map
            (fun u => (checkOne retries fetch u).writes)).flatten,
        transport := some (if truthyOptStr oxyUser && truthyOptStr oxyPass
            then TransportKind.mediated else TransportKind.direct),
        totalAttempts := ((toCheck.filter (fun u => is_valid_instagram_username u)).map
            (fun u => (checkOne retries fetch u).attempts)).sum } := by
  simp only [startRun, hne, Bool.false_eq_true, if_false, List.map_map]
  rfl

/-- C1: an identifier reaches the output sink only if it survives
strip/dedup/validity filtering, it is appended exactly once per batch, and
only because some transport attempt for its URL returned status 404. -/
theorem c1_sink_writes_sound (rawLines : List String) (retries : Nat)
    (oxyUser oxyPass : Option String)
    (fetch : String → Nat → Except String (Json × Json)) (u : String)
    (h : u ∈ (runBatch rawLines retries oxyUser oxyPass fetch).writes) :
    u ∈ (openFileLines rawLines).filter (fun v => is_valid_instagram_username v) ∧
    (runBatch rawLines retries oxyUser oxyPass fetch).writes.count u = 1 ∧
    ∃ k raw, fetch (igUrl u) k = .ok (Json.num 404, raw) := by
  unfold runBatch at h ⊢
  cases hv : (openFileLines rawLines).filter (fun v => is_valid_instagram_username v) |>.isEmpty with
  | true =>
    rw [startRun_eq_empty _ _ _ _ _ hv] at h
    cases h
  | false =>
    rw [startRun_eq_nonempty _ _ _ _ _ hv] at h ⊢
    have hw : ∀ v, (checkOne retries fetch v).writes = []
        ∨ (checkOne retries fetch v).writes = [v] := by
      intro v
      rcases (checkOne_shape retries fetch v).2 with h0 | ⟨h1, _⟩
      · exact Or.inl h0
      · exact Or.inr h1
    have hmem : u ∈ (openFileLines rawLines).filter
        (fun v => is_valid_instagram_username v) :=
      mem_of_mem_taskWrites hw h
    refine ⟨hmem, ?_, ?_⟩
    · exact count_flatten_eq_one
        ((openFileLines_nodup rawLines).filter _) hw h
    · rcases List.mem_flatten.mp h with ⟨ws, hws, huw⟩
      rcases List.mem_map.mp hws with ⟨v, hv2, rfl⟩
      rcases (checkOne_shape retries fetch v).2 with h0 | ⟨h1, hex⟩
      · rw [h0] at huw
        cases huw
      · rw [h1] at huw
        rcases List.mem_singleton.mp huw with rfl
        exact hex

theorem c1_sink_writes_sound_witness :
    "alice" ∈ (openFileLines ["alice", "alice", "bob!"]).filter
        (fun v => is_valid_instagram_username v) ∧
    (runBatch ["alice", "alice", "bob!"] 0 none none
        (fun _ _ => .ok (Json.num 404, Json.null))).writes.count "alice" = 1 ∧
    ∃ k raw, (fun (_ : String) (_ : Nat) =>
        (Except.ok (Json.num 404, Json.null) : Except String (Json × Json)))
      (igUrl "alice") k = .ok (Json.num 404, raw) :=
  c1_sink_writes_sound ["alice", "alice", "bob!"] 0 none none
    (fun _ _ => .ok (Json.num 404, Json.null)) "alice"
    (by simp [runBatch, startRun, checkOne, checkOneFrom, pyEqInt]
        decide)

/-! ### Orchestrator-level report lines -/

lemma isUseOxy_false_of_taskLevel {e : Event} (h : e.isTaskLevel = true) :
    e.isUseOxy = false := by
  cases e <;> simp_all [Event.isTaskLevel, Event.isUseOxy]

lemma isFallback_false_of_taskLevel {e : Event} (h : e.isTaskLevel = true) :
    e.isFallback = false := by
  cases e <;> simp_all [Event.isTaskLevel, Event.isFallback]

lemma countP_skipList_zero (cond : Bool) (n : Nat) (p : Event → Bool)
    (hp : ∀ m, p (Event.skippingInvalid m) = false) :
    (if cond then ([] : List Event) else [Event.skippingInvalid n]).countP p = 0 := by
  cases cond <;> simp [hp]

lemma countP_taskEvents_zero (retries : Nat)
    (fetch : String → Nat → Except String (Json × Json)) (l : List String)
    (p : Event → Bool) (hp : ∀ e, e.isTaskLevel = true → p e = false) :
    ((l.map (fun v => (checkOne retries fetch v).events)).flatten).countP p = 0 := by
  rw [List.countP_eq_zero]
  intro e he
  rcases List.mem_flatten.mp he with ⟨es, hes, hee⟩
  rcases List.mem_map.mp hes with ⟨v, hv, rfl⟩
  rcases (checkOne_shape retries fetch v).1 with ⟨e0, he0, htl⟩
  rw [he0] at hee
  rcases List.mem_singleton.mp hee with rfl
  simp [hp _ htl]

/-- C8: with at least one valid identifier, the batch constructs the Mediated
transport and logs that choice exactly once when both credentials are
supplied (truthy), and otherwise constructs the Direct transport and logs the
inaccuracy warning exactly once; the choice is made once per batch. -/
theorem c8_transport_selection (toCheck : List String) (retries : Nat)
    (oxyUser oxyPass : Option String)
    (fetch : String → Nat → Except String (Json × Json))
    (hne : (toCheck.filter (fun u => is_valid_instagram_username u)).isEmpty = false) :
    ((truthyOptStr oxyUser && truthyOptStr oxyPass) = true →
        (startRun toCheck retries oxyUser oxyPass fetch).transport
            = some TransportKind.mediated ∧
        (startRun toCheck retries oxyUser oxyPass fetch).events.countP
            Event.isUseOxy = 1 ∧
        (startRun toCheck retries oxyUser oxyPass fetch).events.countP
            Event.isFallback = 0) ∧
    ((truthyOptStr oxyUser && truthyOptStr oxyPass) = false →
        (startRun toCheck retries oxyUser oxyPass fetch).transport
            = some TransportKind.direct ∧
        (startRun toCheck retries oxyUser oxyPass fetch).events.countP
            Event.isFallback = 1 ∧
        (startRun toCheck retries oxyUser oxyPass fetch).events.countP
            Event.isUseOxy = 0) := by
  rw [startRun_eq_nonempty _ _ _ _ _ hne]
  constructor
  · intro hcred
    have hev : (if truthyOptStr oxyUser && truthyOptStr oxyPass then Event.usingOxylabs
        else Event.fallbackDirect) = Event.usingOxylabs := by simp [hcred]
    refine ⟨by simp [hcred], ?_, ?_⟩
    · rw [hev, List.countP_append, List.countP_cons,
        countP_skipList_zero _ _ _ (fun m => rfl),
        countP_taskEvents_zero retries fetch _ _
          (fun e he => isUseOxy_false_of_taskLevel he)]
      simp [Event.isUseOxy]
    · rw [hev, List.countP_append, List.countP_cons,
        countP_skipList_zero _ _ _ (fun m => rfl),
        countP_taskEvents_zero retries fetch _ _
          (fun e he => isFallback_false_of_taskLevel he)]
      simp [Event.isFallback]
  · intro hcred
    have hev : (if truthyOptStr oxyUser && truthyOptStr oxyPass then Event.usingOxylabs
        else Event.fallbackDirect) = Event.fallbackDirect := by simp [hcred]
    refine ⟨by simp [hcred], ?_, ?_⟩
    · rw [hev, List.countP_append, List.countP_cons,
        countP_skipList_zero _ _ _ (fun m => rfl),
        countP_taskEvents_zero retries fetch _ _
          (fun e he => isFallback_false_of_taskLevel he)]
      simp [Event.isFallback]
    · rw [hev, List.countP_append, List.countP_cons,
        countP_skipList_zero _ _ _ (fun m => rfl),
        countP_taskEvents_zero retries fetch _ _
          (fun e he => isUseOxy_false_of_taskLevel he)]
      simp [Event.isUseOxy]

theorem c8_transport_selection_witness :
    ((startRun ["alice"] 3 (some "user") (some "pass")
          (fun _ _ => .error "x")).transport = some TransportKind.mediated ∧
      (startRun ["alice"] 3 (some "user") (some "pass")
          (fun _ _ => .error "x")).events.countP Event.isUseOxy = 1 ∧
      (startRun ["alice"] 3 (some "user") (some "pass")
          (fun _ _ => .error "x")).events.countP Event.isFallback = 0) ∧
    ((startRun ["alice"] 3 none none
          (fun _ _ => .error "x")).transport = some TransportKind.direct ∧
      (startRun ["alice"] 3 none none
          (fun _ _ => .error "x")).events.countP Event.isFallback = 1 ∧
      (startRun ["alice"] 3 none none
          (fun _ _ => .error "x")).events.countP Event.isUseOxy = 0) :=
  ⟨(c8_transport_selection ["alice"] 3 (some "user") (some "pass") _ (by decide)).1 rfl,
    (c8_transport_selection ["alice"] 3 none none _ (by decide)).2 rfl⟩

/-- C9: when no valid identifier survives filtering, the batch stops at once:
no transport is constructed, no transport call is made, nothing is written,
and the report ends with the single no-valid-usernames message (preceded at
most by the skipped-count message). -/
theorem c9_empty_valid_early_end (toCheck : List String) (retries : Nat)
    (oxyUser oxyPass : Option String)
    (fetch : String → Nat → Except String (Json × Json))
    (hemp : (toCheck.filter (fun u => is_valid_instagram_username u)).isEmpty = true) :
    (startRun toCheck retries oxyUser oxyPass fetch).transport = none ∧
    (startRun toCheck retries oxyUser oxyPass fetch).totalAttempts = 0 ∧
    (startRun toCheck retries oxyUser oxyPass fetch).writes = [] ∧
    (startRun toCheck retries oxyUser oxyPass fetch).events.getLast?
        = some Event.noValid ∧
    (startRun toCheck retries oxyUser oxyPass fetch).events.countP
        Event.isNoValidMsg = 1 ∧
    ∀ e ∈ (startRun toCheck retries oxyUser oxyPass fetch).events,
      e.isNoValidMsg = true ∨ e.isSkipMsg = true := by
  rw [startRun_eq_empty _ _ _ _ _ hemp]
  refine ⟨rfl, rfl, rfl, ?_, ?_, ?_⟩
  · exact List.getLast?_concat _
  · rw [List.countP_append, countP_skipList_zero _ _ _ (fun m => rfl)]
    simp [Event.isNoValidMsg]
  · intro e he
    rcases List.mem_append.mp he with h1 | h2
    · right
      revert h1
      split
      · intro h1
        cases h1
      · intro h1
        rcases List.mem_singleton.mp h1 with rfl
        rfl
    · left
      rcases List.mem_singleton.mp h2 with rfl
      rfl

theorem c9_empty_valid_early_end_witness :
    (startRun ["bob!"] 3 none none (fun _ _ => .error "x")).transport = none ∧
    (startRun ["bob!"] 3 none none (fun _ _ => .error "x")).totalAttempts = 0 ∧
    (startRun ["bob!"] 3 none none (fun _ _ => .error "x")).writes = [] ∧
    (startRun ["bob!"] 3 none none (fun _ _ => .error "x")).events.getLast?
        = some Event.noValid ∧
    (startRun ["bob!"] 3 none none (fun _ _ => .error "x")).events.countP
        Event.isNoValidMsg = 1 :=
  (fun h => ⟨h.1, h.2.1, h.2.2.1, h.2.2.2.1, h.2.2.2.2.1⟩)
    (c9_empty_valid_early_end ["bob!"] 3 none none
      (fun _ _ => .error "x") (by decide))

theorem c10_constructor_clamps_witness :
    (mkCheckerConfig (-5) (-3)).semCapacity = max 1 (-5) ∧
    1 ≤ (mkCheckerConfig (-5) (-3)).semCapacity ∧
    (mkCheckerConfig (-5) (-3)).retries = max 0 (-3) ∧
    0 ≤ (mkCheckerConfig (-5) (-3)).retries :=
  c10_constructor_clamps (-5) (-3)

end InstaCheck
